import Mathlib

/-!
Verification of the migration engine of the sengol-api repository.

The definitions below are a shallow embedding of the Python sources:

* cloud-jobs/qdrant-migrate/main.py : ensure_collection_exists,
  migrate_collection (scan loop, progress computation, verification), main;
* cloud-jobs/export-qdrant-to-gcs/main.py : export_collection shares the
  same scan-loop shape;
* cloud-functions-fixed/qdrant-loader/main.py : the per-record transform
  inside load_to_qdrant.

Machine integers are modelled as Nat/Int, Python float arithmetic in the
progress computation as exact rationals, and the fallible paths as Option.
The scan loop is written with an explicit fuel argument so that its
termination is a theorem (scan_loop_terminates) rather than an artifact of
the encoding; fuel equal to the remaining point count always suffices.
-/

/-- Distance metrics supported by the vector store. -/
inductive Distance where
  | cosine
  | dot
  | euclid
deriving DecidableEq

/-- A vector record: identifier, embedding vector, uninterpreted payload.
Mirrors the fields the migration job copies (id, vector, payload). -/
structure Point where
  id : Nat
  vector : List Int
  payload : String
deriving DecidableEq

/-- Collection configuration: vector size and distance metric, as in the
VectorParams passed to recreate_collection. -/
structure CollConfig where
  size : Nat
  distance : Distance
deriving DecidableEq

/-- The destination store, restricted to the single collection being
migrated: none means the collection is absent; some holds its
configuration and its current points. -/
structure TargetStore where
  coll : Option (CollConfig × List Point)
deriving DecidableEq

/-- Source collection info as returned by get_collection on the source:
points_count and config.params.vectors (size and distance). The migration
job reads points_count and size; it never reads the distance. -/
structure SourceInfo where
  points_count : Nat
  vector_size : Nat
  distance : Distance
deriving DecidableEq

/-- Qdrant upsert of a single point: if a point with the same id exists it
is overwritten in place, otherwise the point is appended. -/
def upsertOne (t : List Point) (p : Point) : List Point :=
  if p.id ∈ t.map Point.id then
    t.map (fun q => if q.id = p.id then p else q)
  else
    t ++ [p]

/-- Qdrant upsert of a batch of points, applied left to right. -/
def upsertBatch (t : List Point) (ps : List Point) : List Point :=
  ps.foldl upsertOne t

/-- Mutable state of the scan loop in migrate_collection, plus ghost
fields recording the observable history of the run: number of scroll
calls issued, the sizes of the batches returned, and the progress
percentages printed after each batch. -/
structure LoopState where
  offset : Nat
  migrated : Nat
  target : List Point
  scanCalls : Nat
  batchSizes : List Nat
  percents : List Int
deriving DecidableEq

/-- Initial loop state over a destination already holding pts0. -/
def initState (pts0 : List Point) : LoopState :=
  { offset := 0, migrated := 0, target := pts0,
    scanCalls := 0, batchSizes := [], percents := [] }

/-- One iteration body of the scan loop after a non-empty page points was
fetched with the given request limit: upsert the page, advance migrated by
the page length and offset by limit, record the scroll call, the batch
size, and the printed progress percentage (computed from the updated
migrated count, exactly as on line 121 of the migration job). -/
def loopStep (s : LoopState) (points : List Point)
    (limit totalPoints : Nat) : LoopState :=
  { offset := s.offset + limit
    migrated := s.migrated + points.length
    target := upsertBatch s.target points
    scanCalls := s.scanCalls + 1
    batchSizes := s.batchSizes ++ [points.length]
    percents := s.percents ++
      [min 100 (round ((((s.migrated + points.length : Nat) : ℚ) /
        (totalPoints : ℚ)) * 100))] }

/-- The scan loop of migrate_collection (lines 81-127 of
cloud-jobs/qdrant-migrate/main.py), parameterised over the source scroll
function, which returns a page of records together with a next offset.
The loop guard is offset < totalPoints; each iteration requests
limit = min batchSize (totalPoints - offset) records, breaks if the page
is empty, and otherwise performs loopStep. The next-offset component of
the scroll response is never consulted, exactly as in the source
(response[1] is unused). Fuel bounds the number of iterations; none means
the fuel ran out while the guard still held. -/
def migrateLoop (scroll : Nat → Nat → List Point × Option Nat)
    (batchSize totalPoints : Nat) : Nat → LoopState → Option LoopState
  | 0, s => if s.offset < totalPoints then none else some s
  | fuel + 1, s =>
    if s.offset < totalPoints then
      if (scroll s.offset (min batchSize (totalPoints - s.offset))).1 = [] then
        some { s with scanCalls := s.scanCalls + 1 }
      else
        migrateLoop scroll batchSize totalPoints fuel
          (loopStep s (scroll s.offset (min batchSize (totalPoints - s.offset))).1
            (min batchSize (totalPoints - s.offset)) totalPoints)
    else some s

/-- A faithful source holding the given record list: scroll returns the
slice of length limit starting at offset, and the next offset when more
records remain. -/
def sliceScroll (records : List Point) (offset limit : Nat) :
    List Point × Option Nat :=
  ((records.drop offset).take limit,
    if offset + limit < records.length then some (offset + limit) else none)

/-- Ceiling division, used to count the scroll calls the loop issues. -/
def ceilNatDiv (n k : Nat) : Nat := (n + k - 1) / k

theorem ceilNatDiv_zero (k : Nat) : ceilNatDiv 0 k = 0 := by
  unfold ceilNatDiv
  rcases Nat.eq_zero_or_pos k with hk | hk
  · simp [hk]
  · exact Nat.div_eq_of_lt (by omega)

theorem ceilNatDiv_rec (n k : Nat) (hn : 1 ≤ n) (hk : 1 ≤ k) :
    ceilNatDiv n k = 1 + ceilNatDiv (n - min k n) k := by
  unfold ceilNatDiv
  have h1 : n + k - 1 = (n - 1) + k := by omega
  rw [h1, Nat.add_div_right _ (by omega)]
  rcases le_or_lt k n with h | h
  · rw [min_eq_left h]
    have h2 : n - k + k - 1 = n - 1 := by omega
    rw [h2]
    omega
  · rw [min_eq_right h.le]
    have h2 : n - n + k - 1 = k - 1 := by omega
    rw [h2, Nat.div_eq_of_lt (show n - 1 < k by omega),
      Nat.div_eq_of_lt (show k - 1 < k by omega)]

theorem upsertOne_not_mem (t : List Point) (p : Point)
    (h : p.id ∉ t.map Point.id) : upsertOne t p = t ++ [p] := by
  unfold upsertOne
  rw [if_neg h]

theorem upsertOne_mem_map_id (t : List Point) (p : Point)
    (h : p.id ∈ t.map Point.id) :
    (upsertOne t p).map Point.id = t.map Point.id := by
  unfold upsertOne
  rw [if_pos h, List.map_map]
  apply List.map_congr_left
  intro q hq
  by_cases hid : q.id = p.id
  · simp [Function.comp, hid]
  · simp [Function.comp, hid]

theorem upsertBatch_append (t a b : List Point) :
    upsertBatch t (a ++ b) = upsertBatch (upsertBatch t a) b := by
  simp [upsertBatch, List.foldl_append]

theorem upsertBatch_disjoint (ps : List Point) :
    ∀ t : List Point, (∀ p ∈ ps, p.id ∉ t.map Point.id) →
      (ps.map Point.id).Nodup → upsertBatch t ps = t ++ ps := by
  induction ps with
  | nil => intro t _ _; simp [upsertBatch]
  | cons p ps ih =>
    intro t hdis hnodup
    simp only [List.map_cons, List.nodup_cons] at hnodup
    have h1 : upsertBatch t (p :: ps) = upsertBatch (upsertOne t p) ps := rfl
    have hd2 : ∀ q ∈ ps, q.id ∉ (t ++ [p]).map Point.id := by
      intro q hq
      rw [List.map_append, List.mem_append]
      push_neg
      refine ⟨hdis q (List.mem_cons_of_mem _ hq), ?_⟩
      simp only [List.map_cons, List.map_nil, List.mem_singleton]
      intro hqp
      exact hnodup.1 (by rw [← hqp]; exact List.mem_map_of_mem Point.id hq)
    rw [h1, upsertOne_not_mem t p (hdis p (List.mem_cons_self p ps)),
      ih (t ++ [p]) hd2 hnodup.2]
    simp

theorem upsertBatch_mem (ps : List Point) :
    ∀ t : List Point, (∀ p ∈ ps, p.id ∈ t.map Point.id) →
      (upsertBatch t ps).map Point.id = t.map Point.id := by
  induction ps with
  | nil => intro t _; rfl
  | cons p ps ih =>
    intro t hmem
    have h1 : upsertBatch t (p :: ps) = upsertBatch (upsertOne t p) ps := rfl
    have hmap := upsertOne_mem_map_id t p (hmem p (List.mem_cons_self p ps))
    have hmem2 : ∀ q ∈ ps, q.id ∈ (upsertOne t p).map Point.id := by
      intro q hq
      rw [hmap]
      exact hmem q (List.mem_cons_of_mem _ hq)
    rw [h1, ih (upsertOne t p) hmem2, hmap]

theorem migrateLoop_done (scroll : Nat → Nat → List Point × Option Nat)
    (bs total fuel : Nat) (s : LoopState) (h : ¬ s.offset < total) :
    migrateLoop scroll bs total fuel s = some s := by
  cases fuel <;> (simp only [migrateLoop]; rw [if_neg h])

theorem migrateLoop_succ_empty (scroll : Nat → Nat → List Point × Option Nat)
    (bs total fuel : Nat) (s : LoopState) (hguard : s.offset < total)
    (hemp : (scroll s.offset (min bs (total - s.offset))).1 = []) :
    migrateLoop scroll bs total (fuel + 1) s =
      some { s with scanCalls := s.scanCalls + 1 } := by
  simp only [migrateLoop]
  rw [if_pos hguard, if_pos hemp]

theorem migrateLoop_succ_pos (scroll : Nat → Nat → List Point × Option Nat)
    (bs total fuel : Nat) (s : LoopState) (hguard : s.offset < total)
    (hne : (scroll s.offset (min bs (total - s.offset))).1 ≠ []) :
    migrateLoop scroll bs total (fuel + 1) s =
      migrateLoop scroll bs total fuel
        (loopStep s (scroll s.offset (min bs (total - s.offset))).1
          (min bs (total - s.offset)) total) := by
  simp only [migrateLoop]
  rw [if_pos hguard, if_neg hne]

theorem migrateLoop_term (scroll : Nat → Nat → List Point × Option Nat)
    (bs total : Nat) (hb : 1 ≤ bs) :
    ∀ (fuel : Nat) (s : LoopState), total - s.offset ≤ fuel →
      ∃ s', migrateLoop scroll bs total fuel s = some s' := by
  intro fuel
  induction fuel with
  | zero =>
    intro s hs
    exact ⟨s, migrateLoop_done scroll bs total 0 s (by omega)⟩
  | succ fuel ih =>
    intro s hs
    by_cases hguard : s.offset < total
    · by_cases hemp : (scroll s.offset (min bs (total - s.offset))).1 = []
      · exact ⟨_, migrateLoop_succ_empty scroll bs total fuel s hguard hemp⟩
      · rw [migrateLoop_succ_pos scroll bs total fuel s hguard hemp]
        exact ih _ (by simp only [loopStep]; omega)
    · exact ⟨s, migrateLoop_done scroll bs total _ s hguard⟩

theorem migrateLoop_fst_congr (scroll₁ scroll₂ : Nat → Nat → List Point × Option Nat)
    (h : ∀ o l, (scroll₁ o l).1 = (scroll₂ o l).1) (bs total : Nat) :
    ∀ (fuel : Nat) (s : LoopState),
      migrateLoop scroll₁ bs total fuel s = migrateLoop scroll₂ bs total fuel s := by
  intro fuel
  induction fuel with
  | zero => intro s; rfl
  | succ fuel ih =>
    intro s
    simp only [migrateLoop, h, ih]

theorem migrateLoop_stop (scroll : Nat → Nat → List Point × Option Nat)
    (bs total : Nat) :
    ∀ (fuel : Nat) (s s' : LoopState),
      migrateLoop scroll bs total fuel s = some s' →
      total ≤ s'.offset ∨ (scroll s'.offset (min bs (total - s'.offset))).1 = [] := by
  intro fuel
  induction fuel with
  | zero =>
    intro s s' hrun
    simp only [migrateLoop] at hrun
    by_cases hguard : s.offset < total
    · rw [if_pos hguard] at hrun
      exact absurd hrun (by simp)
    · rw [if_neg hguard] at hrun
      cases hrun
      left
      omega
  | succ fuel ih =>
    intro s s' hrun
    by_cases hguard : s.offset < total
    · by_cases hemp : (scroll s.offset (min bs (total - s.offset))).1 = []
      · rw [migrateLoop_succ_empty scroll bs total fuel s hguard hemp] at hrun
        cases hrun
        right
        simpa using hemp
      · rw [migrateLoop_succ_pos scroll bs total fuel s hguard hemp] at hrun
        exact ih _ s' hrun
    · rw [migrateLoop_done scroll bs total _ s hguard] at hrun
      cases hrun
      left
      omega

theorem sliceScroll_fst (records : List Point) (o l : Nat) :
    (sliceScroll records o l).1 = (records.drop o).take l := rfl

theorem migrateLoop_slice (records : List Point) (bs : Nat) (hb : 1 ≤ bs) :
    ∀ (fuel : Nat) (s : LoopState),
      s.offset ≤ records.length → records.length - s.offset ≤ fuel →
      ∃ s', migrateLoop (sliceScroll records) bs records.length fuel s = some s' ∧
        s'.offset = records.length ∧
        s'.migrated = s.migrated + (records.length - s.offset) ∧
        s'.scanCalls = s.scanCalls + ceilNatDiv (records.length - s.offset) bs ∧
        s'.batchSizes.sum = s.batchSizes.sum + (records.length - s.offset) ∧
        s'.target = upsertBatch s.target (records.drop s.offset) := by
  intro fuel
  induction fuel with
  | zero =>
    intro s hoff hfuel
    have heq : s.offset = records.length := by omega
    refine ⟨s, migrateLoop_done _ bs records.length 0 s (by omega), heq, ?_, ?_, ?_, ?_⟩
    · omega
    · rw [show records.length - s.offset = 0 by omega, ceilNatDiv_zero]
      omega
    · omega
    · rw [heq, List.drop_length]
      rfl
  | succ fuel ih =>
    intro s hoff hfuel
    by_cases hguard : s.offset < records.length
    · have hlen : ((sliceScroll records s.offset
          (min bs (records.length - s.offset))).1).length
          = min bs (records.length - s.offset) := by
        rw [sliceScroll_fst, List.length_take, List.length_drop]
        omega
      have hne : (sliceScroll records s.offset
          (min bs (records.length - s.offset))).1 ≠ [] := by
        intro hcon
        rw [hcon] at hlen
        simp only [List.length_nil] at hlen
        omega
      rw [migrateLoop_succ_pos _ bs records.length fuel s hguard hne]
      obtain ⟨s', hrun, ho, hm, hc, hsum, htgt⟩ :=
        ih (loopStep s (sliceScroll records s.offset
              (min bs (records.length - s.offset))).1
            (min bs (records.length - s.offset)) records.length)
          (by simp only [loopStep]; omega)
          (by simp only [loopStep]; omega)
      simp only [loopStep, hlen] at hm hc hsum htgt
      refine ⟨s', hrun, ho, by omega, ?_, ?_, ?_⟩
      · rw [hc, show records.length - (s.offset + min bs (records.length - s.offset))
            = (records.length - s.offset)
              - min bs (records.length - s.offset) by omega]
        rw [ceilNatDiv_rec (records.length - s.offset) bs (by omega) hb]
        omega
      · rw [hsum]
        simp only [List.sum_append, List.sum_cons, List.sum_nil]
        omega
      · have hdd : (records.drop s.offset).drop (min bs (records.length - s.offset))
            = records.drop (s.offset + min bs (records.length - s.offset)) := by
          rw [List.drop_drop]
        have hsplit : (records.drop s.offset).take (min bs (records.length - s.offset))
            ++ records.drop (s.offset + min bs (records.length - s.offset))
            = records.drop s.offset := by
          rw [← hdd]
          exact List.take_append_drop _ _
        rw [htgt, sliceScroll_fst, ← upsertBatch_append, hsplit]
    · have heq : s.offset = records.length := by omega
      refine ⟨s, migrateLoop_done _ bs records.length _ s hguard, heq, ?_, ?_, ?_, ?_⟩
      · omega
      · rw [show records.length - s.offset = 0 by omega, ceilNatDiv_zero]
        omega
      · omega
      · rw [heq, List.drop_length]
        rfl

/-- Observable store calls of a migration run: creation of the destination
collection, or an upsert of a batch of the given size. -/
inductive MEvent where
  | create (size : Nat) (distance : Distance)
  | upsert (count : Nat)
deriving DecidableEq

/-- Whether an event is a create-collection call. -/
def MEvent.isCreate : MEvent → Bool
  | .create _ _ => true
  | .upsert _ => false

/-- ensure_collection_exists (lines 38-53 of the migration job): if
get_collection on the target succeeds the function is a no-op; otherwise
it creates the collection with the source vector size and the hard-coded
Distance.COSINE metric. Returns the updated store and the create calls
issued. -/
def ensure_collection_exists (store : TargetStore) (vector_size : Nat) :
    TargetStore × List MEvent :=
  match store.coll with
  | some _ => (store, [])
  | none =>
    (⟨some ({ size := vector_size, distance := Distance.cosine }, [])⟩,
      [MEvent.create vector_size Distance.cosine])

/-- Field names of the metadata dictionary built by migrate_collection
(lines 138-147 of the migration job). -/
def migrationMetadataKeys : List String :=
  ["collection", "migrated_at", "source_points", "target_points",
    "vector_size", "migration_duration_seconds"]

/-- The numeric fields of the migration result dictionary. -/
structure MigrationMetadata where
  source_points : Nat
  target_points : Nat
  vector_size : Nat
deriving DecidableEq

/-- Result of one migrate_collection run: final target store, the result
metadata, the warnings printed, and the ghost observables of the scan
loop (scroll-call count, progress percentages, store-call trace). -/
structure MigrationRun where
  store : TargetStore
  metadata : MigrationMetadata
  warnings : List String
  scanCalls : Nat
  percents : List Int
  trace : List MEvent
deriving DecidableEq

/-- migrate_collection (lines 56-149 of the migration job): read the
source points_count and vector size, ensure the target collection exists,
run the scan loop from offset 0, then verify by reading the target count
and warn when it differs from the source count. The fuel given to the
loop is the source points_count, which always suffices (see
scan_loop_terminates). A none result models the run raising. -/
def migrate_collection (scroll : Nat → Nat → List Point × Option Nat)
    (srcInfo : SourceInfo) (store0 : TargetStore) (batchSize : Nat) :
    Option MigrationRun :=
  match ensure_collection_exists store0 srcInfo.vector_size with
  | (store1, creates) =>
    match store1.coll with
    | none => none
    | some (cfg, pts0) =>
      match migrateLoop scroll batchSize srcInfo.points_count
          srcInfo.points_count (initState pts0) with
      | none => none
      | some s =>
        some { store := ⟨some (cfg, s.target)⟩
               metadata := { source_points := srcInfo.points_count
                             target_points := s.target.length
                             vector_size := srcInfo.vector_size }
               warnings := if s.target.length ≠ srcInfo.points_count then
                   ["WARNING: Mismatch in point count!"] else []
               scanCalls := s.scanCalls
               percents := s.percents
               trace := creates ++ s.batchSizes.map MEvent.upsert }

/-- Observable outcome of main (lines 152-193 of the migration job):
process exit code, the final state of the target store, the number of
scroll calls issued against the source, and the migration result when one
was produced. -/
structure MainOutcome where
  exitCode : Nat
  store : TargetStore
  scanCalls : Nat
  result : Option MigrationRun
deriving DecidableEq

/-- main of the migration job: if the named collection is not among the
source collections, print an error and exit 1 before any scan or write;
otherwise run migrate_collection with the default batch size 100 and
return 0 (a raising run exits 1). -/
def mainRun (sourceCollections : List String) (collection_name : String)
    (scroll : Nat → Nat → List Point × Option Nat)
    (srcInfo : SourceInfo) (store0 : TargetStore) : MainOutcome :=
  if collection_name ∈ sourceCollections then
    match migrate_collection scroll srcInfo store0 100 with
    | some run =>
      { exitCode := 0, store := run.store, scanCalls := run.scanCalls,
        result := some run }
    | none => { exitCode := 1, store := store0, scanCalls := 0, result := none }
  else
    { exitCode := 1, store := store0, scanCalls := 0, result := none }

/-- The progress computation of migrate_collection (lines 120-127):
percentage printed, points per second, and ETA in seconds, over exact
rationals. Written exactly as in the code: rate is migrated / elapsed
when elapsed is positive and 0 otherwise, eta is remaining / rate when
rate is positive and 0 otherwise. -/
def progress_update (migrated total : Nat) (elapsed : ℚ) : Int × ℚ × ℚ :=
  (min 100 (round (((migrated : ℚ) / (total : ℚ)) * 100)),
    if 0 < elapsed then (migrated : ℚ) / elapsed else 0,
    if 0 < (if 0 < elapsed then (migrated : ℚ) / elapsed else 0) then
      ((total : ℚ) - (migrated : ℚ)) /
        (if 0 < elapsed then (migrated : ℚ) / elapsed else 0)
    else 0)

/-- Modelled from the spec (section 4.4 Progress Tracker): the update
contract written from the specification text, to be compared with the
progress computation of the code. -/
def progressSpecUpdate (migrated total : Nat) (elapsed : ℚ) : Int × ℚ × ℚ :=
  (min 100 (round ((100 * (migrated : ℚ)) / (total : ℚ))),
    if elapsed = 0 then 0 else (migrated : ℚ) / elapsed,
    if 0 < (if elapsed = 0 then 0 else (migrated : ℚ) / elapsed) then
      ((total : ℚ) - (migrated : ℚ)) /
        (if elapsed = 0 then 0 else (migrated : ℚ) / elapsed)
    else 0)

/-- Fields of the original_record dictionary that the loader reads,
each possibly absent (read with dict.get, defaulting to None). -/
structure OrigRecord where
  description : Option String
  text : Option String
  abstract : Option String
  title : Option String
  severity : Option String
  organization : Option String
  incident_date : Option String
deriving DecidableEq

/-- The empty original_record dictionary. -/
def OrigRecord.empty : OrigRecord :=
  ⟨none, none, none, none, none, none, none⟩

/-- Fields of the metadata dictionary of an embedding record. -/
structure MetaRecord where
  original_record : Option OrigRecord
  source_file : Option String
  category : Option String
deriving DecidableEq

/-- The empty metadata dictionary. -/
def MetaRecord.empty : MetaRecord := ⟨none, none, none⟩

/-- One embedding record parsed from the JSONL file in load_to_qdrant.
The id and embedding fields are read with direct indexing in the code, so
they are modelled as optional here and their absence makes the transform
fail; every other field is read with dict.get. -/
structure EmbRecord where
  id : Option String
  embedding : Option (List Int)
  embedding_id : Option String
  embedding_text : Option String
  metadata : Option MetaRecord
deriving DecidableEq

/-- Python or on strings: a None or empty left operand is falsy, so the
result is the right operand; otherwise the left string. -/
def pyOr (a : Option String) (b : String) : String :=
  match a with
  | some s => if s = "" then b else s
  | none => b

/-- The nested metadata object of the payload built by the loader. -/
structure PayloadMeta where
  title : Option String
  severity : Option String
  organization : Option String
  incident_date : Option String
deriving DecidableEq

/-- The payload built by the loader for one point (lines 79-91 of
cloud-functions-fixed/qdrant-loader/main.py). -/
structure LoaderPayload where
  embedding_id : Option String
  embedding_text : String
  content : String
  source_file : Option String
  category : Option String
  metadata : PayloadMeta
deriving DecidableEq

/-- A destination point built by the loader. -/
structure LoaderPoint where
  id : String
  vector : List Int
  payload : LoaderPayload
deriving DecidableEq

/-- Python string slicing content[:n]: the first n characters. -/
def pyTruncate (s : String) (n : Nat) : String := ⟨s.data.take n⟩

/-- The per-record transform inside load_to_qdrant (lines 66-93 of
cloud-functions-fixed/qdrant-loader/main.py): the content field is the
Python or-chain over description, text and abstract of the original
record, falling back to the embedding text, truncated to 1000 characters;
all payload fields are read with dict.get and default to None or the
empty string; the id and embedding fields are read with direct indexing,
so a record lacking either raises KeyError, modelled as none. -/
def transformRecord (emb : EmbRecord) : Option LoaderPoint :=
  match emb.id, emb.embedding with
  | some pid, some vec =>
    some
      { id := pid
        vector := vec
        payload :=
          { embedding_id := emb.embedding_id
            embedding_text := emb.embedding_text.getD ""
            content := pyTruncate
              (pyOr ((emb.metadata.getD MetaRecord.empty).original_record.getD
                  OrigRecord.empty).description
                (pyOr ((emb.metadata.getD MetaRecord.empty).original_record.getD
                    OrigRecord.empty).text
                  (pyOr ((emb.metadata.getD MetaRecord.empty).original_record.getD
                      OrigRecord.empty).abstract
                    (emb.embedding_text.getD "")))) 1000
            source_file := (emb.metadata.getD MetaRecord.empty).source_file
            category := (emb.metadata.getD MetaRecord.empty).category
            metadata :=
              { title := ((emb.metadata.getD MetaRecord.empty).original_record.getD
                  OrigRecord.empty).title
                severity := ((emb.metadata.getD MetaRecord.empty).original_record.getD
                  OrigRecord.empty).severity
                organization := ((emb.metadata.getD MetaRecord.empty).original_record.getD
                  OrigRecord.empty).organization
                incident_date := ((emb.metadata.getD MetaRecord.empty).original_record.getD
                  OrigRecord.empty).incident_date } } }
  | _, _ => none

/-- Modelled from the spec (section 4.2 Batch Transformer): the first
non-empty entry of a list of optional strings, falling back to the given
default, mirroring the wording first non-empty of description, text and
abstract. -/
def firstNonEmpty : List (Option String) → String → String
  | [], d => d
  | a :: rest, d => pyOr a (firstNonEmpty rest d)

/-- C1: for every source collection with total_count records and every
fixed batch limit of at least 1, the scan loop issues exactly
ceil(total_count / limit) scroll calls, the sum of the returned batch
sizes equals total_count, and migrated_count equals total_count when the
loop finishes. -/
theorem scan_loop_exhausts_source (records : List Point) (batchSize : Nat)
    (hb : 1 ≤ batchSize) :
    ∃ s, migrateLoop (sliceScroll records) batchSize records.length
        records.length (initState []) = some s ∧
      s.scanCalls = ceilNatDiv records.length batchSize ∧
      s.batchSizes.sum = records.length ∧
      s.migrated = records.length := by
  obtain ⟨s, hrun, ho, hm, hc, hsum, htgt⟩ :=
    migrateLoop_slice records batchSize hb records.length (initState [])
      (by simp [initState]) (by simp [initState])
  simp only [initState, Nat.sub_zero, List.sum_nil] at hm hc hsum
  exact ⟨s, hrun, by omega, by omega, by omega⟩

theorem scan_loop_exhausts_source_witness :
    (1 ≤ 2) ∧
    ∃ s, migrateLoop (sliceScroll [⟨0, [], ""⟩, ⟨1, [], ""⟩, ⟨2, [], ""⟩]) 2 3 3
        (initState []) = some s ∧
      s.scanCalls = ceilNatDiv 3 2 ∧
      s.batchSizes.sum = 3 ∧
      s.migrated = 3 :=
  ⟨by decide,
    scan_loop_exhausts_source [⟨0, [], ""⟩, ⟨1, [], ""⟩, ⟨2, [], ""⟩] 2 (by decide)⟩

/-- C10: for every batch size of at least 1, every total point count and
every scroll function, the scan loop terminates after finitely many
iterations: fuel equal to the remaining point count always suffices, so
the loop never runs out of fuel. -/
theorem scan_loop_terminates (scroll : Nat → Nat → List Point × Option Nat)
    (batchSize totalPoints fuel : Nat) (s : LoopState) (hb : 1 ≤ batchSize)
    (hfuel : totalPoints - s.offset ≤ fuel) :
    ∃ s', migrateLoop scroll batchSize totalPoints fuel s = some s' :=
  migrateLoop_term scroll batchSize totalPoints hb fuel s hfuel

theorem scan_loop_terminates_witness :
    (1 ≤ 1) ∧ (3 - (initState []).offset ≤ 3) ∧
    ∃ s', migrateLoop (fun _ _ => ([⟨7, [], ""⟩], none)) 1 3 3
      (initState []) = some s' :=
  ⟨by decide, by decide,
    scan_loop_terminates (fun _ _ => ([⟨7, [], ""⟩], none)) 1 3 3 (initState [])
      (by decide) (by decide)⟩

/-- C5: for migrated_count at least 0, total_count positive and
elapsed_seconds non-negative, the progress computation of the code equals
the spec contract (percent is min(100, round(100 * migrated / total)),
rate is migrated / elapsed with 0 at elapsed = 0, eta is remaining / rate
when rate is positive and 0 otherwise), and at migrated=50, total=200,
elapsed=10 it returns percent=25, rate=5 and eta=30. -/
theorem progress_update_matches_spec (migrated total : Nat) (elapsed : ℚ)
    (ht : 0 < total) (he : 0 ≤ elapsed) :
    progress_update migrated total elapsed
      = progressSpecUpdate migrated total elapsed ∧
    progress_update 50 200 10 = (25, 5, 30) := by
  constructor
  · unfold progress_update progressSpecUpdate
    have hr : ((migrated : ℚ) / (total : ℚ)) * 100
        = (100 * (migrated : ℚ)) / (total : ℚ) := by ring
    rw [hr]
    rcases eq_or_lt_of_le he with he0 | hpos
    · rw [← he0]
      norm_num
    · simp only [if_pos hpos, if_neg (ne_of_gt hpos)]
  · unfold progress_update
    norm_num

theorem progress_update_matches_spec_witness :
    (0 < 200) ∧ ((0 : ℚ) ≤ 10) ∧
    (progress_update 50 200 10 = progressSpecUpdate 50 200 10 ∧
      progress_update 50 200 10 = (25, 5, 30)) :=
  ⟨by decide, by norm_num, progress_update_matches_spec 50 200 10 (by decide) (by norm_num)⟩

/-- C7: if the named source collection is not among the source
collections, main exits with code 1 before any scan or write: no scroll
call is issued, the target store is unchanged, and no migration result is
produced. -/
theorem source_not_found_fatal (sourceCollections : List String)
    (collection_name : String) (scroll : Nat → Nat → List Point × Option Nat)
    (srcInfo : SourceInfo) (store0 : TargetStore)
    (habs : collection_name ∉ sourceCollections) :
    mainRun sourceCollections collection_name scroll srcInfo store0
      = { exitCode := 1, store := store0, scanCalls := 0, result := none } := by
  unfold mainRun
  rw [if_neg habs]

theorem source_not_found_fatal_witness :
    ("sengol_incidents" ∉ ["other_collection"]) ∧
    mainRun ["other_collection"] "sengol_incidents" (fun _ _ => ([], none))
        ⟨5, 3, Distance.cosine⟩ ⟨none⟩
      = { exitCode := 1, store := ⟨none⟩, scanCalls := 0, result := none } :=
  ⟨by decide,
    source_not_found_fatal ["other_collection"] "sengol_incidents"
      (fun _ _ => ([], none)) ⟨5, 3, Distance.cosine⟩ ⟨none⟩ (by decide)⟩

theorem ensure_absent (v : Nat) :
    ensure_collection_exists ⟨none⟩ v
      = (⟨some (⟨v, Distance.cosine⟩, [])⟩, [MEvent.create v Distance.cosine]) := rfl

theorem ensure_present (cfg : CollConfig) (pts : List Point) (v : Nat) :
    ensure_collection_exists ⟨some (cfg, pts)⟩ v = (⟨some (cfg, pts)⟩, []) := rfl


theorem migrate_collection_inv (scroll : Nat → Nat → List Point × Option Nat)
    (srcInfo : SourceInfo) (store0 : TargetStore) (bs : Nat) (run : MigrationRun)
    (h : migrate_collection scroll srcInfo store0 bs = some run) :
    ∃ cfg pts0 creates s,
      ensure_collection_exists store0 srcInfo.vector_size
        = (⟨some (cfg, pts0)⟩, creates) ∧
      migrateLoop scroll bs srcInfo.points_count srcInfo.points_count
        (initState pts0) = some s ∧
      run.store = ⟨some (cfg, s.target)⟩ ∧
      run.metadata = ⟨srcInfo.points_count, s.target.length, srcInfo.vector_size⟩ ∧
      run.warnings = (if s.target.length ≠ srcInfo.points_count then
        ["WARNING: Mismatch in point count!"] else []) ∧
      run.scanCalls = s.scanCalls ∧
      run.percents = s.percents ∧
      run.trace = creates ++ s.batchSizes.map MEvent.upsert := by
  unfold migrate_collection at h
  split at h
  rename_i store1 creates hE
  split at h
  · exact absurd h (by simp)
  · rename_i cfg pts0 hc
    split at h
    · exact absurd h (by simp)
    · rename_i s hL
      simp only [Option.some.injEq] at h
      obtain ⟨c⟩ := store1
      simp only at hc
      refine ⟨cfg, pts0, creates, s, ?_, hL, ?_, ?_, ?_, ?_, ?_, ?_⟩
      · rw [hc] at hE
        exact hE
      all_goals rw [← h]

theorem migrate_collection_eval (scroll : Nat → Nat → List Point × Option Nat)
    (srcInfo : SourceInfo) (store0 : TargetStore) (bs : Nat) (cfg : CollConfig)
    (pts0 : List Point) (creates : List MEvent) (s : LoopState)
    (hE : ensure_collection_exists store0 srcInfo.vector_size
      = (⟨some (cfg, pts0)⟩, creates))
    (hL : migrateLoop scroll bs srcInfo.points_count srcInfo.points_count
      (initState pts0) = some s) :
    migrate_collection scroll srcInfo store0 bs =
      some { store := ⟨some (cfg, s.target)⟩
             metadata := ⟨srcInfo.points_count, s.target.length, srcInfo.vector_size⟩
             warnings := if s.target.length ≠ srcInfo.points_count then
                 ["WARNING: Mismatch in point count!"] else []
             scanCalls := s.scanCalls
             percents := s.percents
             trace := creates ++ s.batchSizes.map MEvent.upsert } := by
  unfold migrate_collection
  rw [hE]
  simp only [hL]

/-- C2: migrating a collection of N id-distinct records into an absent
destination yields a destination of exactly N records, and replaying the
whole migration from offset 0 against the now-populated destination again
yields exactly N records: id-keyed upserts overwrite rather than
duplicate, so migration is idempotent with respect to the destination
record set. -/
theorem migration_idempotent_replay (records : List Point) (batchSize : Nat)
    (srcInfo : SourceInfo) (hb : 1 ≤ batchSize)
    (hcount : srcInfo.points_count = records.length)
    (hnodup : (records.map Point.id).Nodup) :
    ∃ run1 run2,
      migrate_collection (sliceScroll records) srcInfo ⟨none⟩ batchSize
        = some run1 ∧
      run1.metadata.target_points = records.length ∧
      migrate_collection (sliceScroll records) srcInfo run1.store batchSize
        = some run2 ∧
      run2.metadata.target_points = records.length := by
  obtain ⟨N, V, D⟩ := srcInfo
  simp only at hcount
  subst hcount
  obtain ⟨s1, hrun1, ho1, hm1, hc1, hsum1, htgt1⟩ :=
    migrateLoop_slice records batchSize hb records.length (initState [])
      (by simp [initState]) (by simp [initState])
  have htgt1' : s1.target = records := by
    rw [htgt1]
    simp only [initState, List.drop_zero]
    rw [upsertBatch_disjoint records [] (by simp) hnodup]
    simp
  have h1 := migrate_collection_eval (sliceScroll records) ⟨records.length, V, D⟩
    ⟨none⟩ batchSize ⟨V, Distance.cosine⟩ [] [MEvent.create V Distance.cosine] s1
    rfl hrun1
  obtain ⟨s2, hrun2, ho2, hm2, hc2, hsum2, htgt2⟩ :=
    migrateLoop_slice records batchSize hb records.length (initState records)
      (by simp [initState]) (by simp [initState])
  have htgt2' : s2.target.length = records.length := by
    rw [htgt2]
    simp only [initState, List.drop_zero]
    have hmm := upsertBatch_mem records records
      (fun p hp => List.mem_map_of_mem Point.id hp)
    have hlen := congrArg List.length hmm
    simpa using hlen
  have h2 := migrate_collection_eval (sliceScroll records) ⟨records.length, V, D⟩
    ⟨some (⟨V, Distance.cosine⟩, records)⟩ batchSize ⟨V, Distance.cosine⟩ records [] s2
    rfl hrun2
  rw [htgt1'] at h1
  rw [htgt2'] at h2
  exact ⟨_, _, h1, rfl, h2, rfl⟩

theorem migration_idempotent_replay_witness :
    (1 ≤ 1) ∧
    ((SourceInfo.mk 2 4 Distance.cosine).points_count
      = [Point.mk 0 [] "a", Point.mk 1 [] "b"].length) ∧
    (([Point.mk 0 [] "a", Point.mk 1 [] "b"].map Point.id).Nodup) ∧
    ∃ run1 run2,
      migrate_collection (sliceScroll [Point.mk 0 [] "a", Point.mk 1 [] "b"])
          ⟨2, 4, Distance.cosine⟩ ⟨none⟩ 1 = some run1 ∧
      run1.metadata.target_points = [Point.mk 0 [] "a", Point.mk 1 [] "b"].length ∧
      migrate_collection (sliceScroll [Point.mk 0 [] "a", Point.mk 1 [] "b"])
          ⟨2, 4, Distance.cosine⟩ run1.store 1 = some run2 ∧
      run2.metadata.target_points = [Point.mk 0 [] "a", Point.mk 1 [] "b"].length :=
  ⟨by decide, by decide, by decide,
    migration_idempotent_replay [Point.mk 0 [] "a", Point.mk 1 [] "b"] 1
      ⟨2, 4, Distance.cosine⟩ (by decide) (by decide) (by decide)⟩

/-- C3 counterexample: migrating a source whose distance metric is
euclid into an absent destination issues a create call carrying the
hard-coded cosine metric, not the source metric, refuting the claim that
the create call carries the source collection's distance metric. -/
theorem create_call_metric_counterexample :
    migrate_collection (fun _ _ => ([], none)) ⟨0, 3, Distance.euclid⟩ ⟨none⟩ 1
      = some { store := ⟨some (⟨3, Distance.cosine⟩, [])⟩
               metadata := ⟨0, 0, 3⟩
               warnings := []
               scanCalls := 0
               percents := []
               trace := [MEvent.create 3 Distance.cosine] } ∧
    Distance.cosine ≠ Distance.euclid := by
  constructor
  · rfl
  · decide

/-- C3 amended: when the destination collection is absent, a completed
migration run issues exactly one create call, carrying the source vector
size and the hard-coded cosine distance metric (regardless of the source
metric), and this create call precedes every upsert call; when the
destination collection already exists, no create call is issued. -/
theorem schema_creation_amended (scroll : Nat → Nat → List Point × Option Nat)
    (srcInfo : SourceInfo) (store0 : TargetStore) (bs : Nat) (run : MigrationRun)
    (h : migrate_collection scroll srcInfo store0 bs = some run) :
    (store0.coll = none →
      ∃ upserts, run.trace
          = MEvent.create srcInfo.vector_size Distance.cosine :: upserts ∧
        ∀ e ∈ upserts, e.isCreate = false) ∧
    (store0.coll ≠ none → ∀ e ∈ run.trace, e.isCreate = false) := by
  obtain ⟨cfg, pts0, creates, s, hE, hL, hst, hmd, hw, hsc, hpc, htr⟩ :=
    migrate_collection_inv scroll srcInfo store0 bs run h
  obtain ⟨c0⟩ := store0
  rcases c0 with _ | ⟨cfg0, pts00⟩
  · constructor
    · intro _
      rw [ensure_absent] at hE
      simp only [Prod.mk.injEq, TargetStore.mk.injEq, Option.some.injEq] at hE
      obtain ⟨⟨hcfg, hpts⟩, hcr⟩ := hE
      refine ⟨s.batchSizes.map MEvent.upsert, ?_, ?_⟩
      · rw [htr, ← hcr]
        rfl
      · intro e he
        simp only [List.mem_map] at he
        obtain ⟨n, _, hen⟩ := he
        rw [← hen]
        rfl
    · intro hne
      simp at hne
  · constructor
    · intro hnone
      simp at hnone
    · intro _
      rw [ensure_present] at hE
      simp only [Prod.mk.injEq] at hE
      obtain ⟨_, hcr⟩ := hE
      rw [htr, ← hcr]
      intro e he
      simp only [List.nil_append, List.mem_map] at he
      obtain ⟨n, _, hen⟩ := he
      rw [← hen]
      rfl

theorem schema_creation_amended_witness :
    (migrate_collection (fun _ _ => ([], none)) ⟨0, 5, Distance.dot⟩ ⟨none⟩ 1
      = some { store := ⟨some (⟨5, Distance.cosine⟩, [])⟩
               metadata := ⟨0, 0, 5⟩
               warnings := []
               scanCalls := 0
               percents := []
               trace := [MEvent.create 5 Distance.cosine] }) ∧
    (((⟨none⟩ : TargetStore).coll = none →
      ∃ upserts, (MigrationRun.trace
          { store := ⟨some (⟨5, Distance.cosine⟩, [])⟩
            metadata := ⟨0, 0, 5⟩
            warnings := []
            scanCalls := 0
            percents := []
            trace := [MEvent.create 5 Distance.cosine] })
          = MEvent.create (SourceInfo.mk 0 5 Distance.dot).vector_size
              Distance.cosine :: upserts ∧
        ∀ e ∈ upserts, e.isCreate = false) ∧
    ((⟨none⟩ : TargetStore).coll ≠ none →
      ∀ e ∈ (MigrationRun.trace
          { store := ⟨some (⟨5, Distance.cosine⟩, [])⟩
            metadata := ⟨0, 0, 5⟩
            warnings := []
            scanCalls := 0
            percents := []
            trace := [MEvent.create 5 Distance.cosine] }), e.isCreate = false)) :=
  ⟨rfl, schema_creation_amended (fun _ _ => ([], none)) ⟨0, 5, Distance.dot⟩
    ⟨none⟩ 1 _ rfl⟩

/-- C4 counterexample: a source whose first page is non-empty but carries
a null next_offset does not stop the loop: with two total points and
batch size 1 the loop issues a second scroll call, refuting the claim
that the loop stops at the first page whose next_offset is null. -/
theorem next_offset_ignored_counterexample :
    ((fun (_ _ : Nat) => ([Point.mk 5 [] ""], (none : Option Nat))) 0 1).2
      = none ∧
    ((fun (_ _ : Nat) => ([Point.mk 5 [] ""], (none : Option Nat))) 0 1).1
      ≠ [] ∧
    (migrateLoop (fun _ _ => ([Point.mk 5 [] ""], none)) 1 2 2
        (initState [])).map LoopState.scanCalls = some 2 := by
  refine ⟨rfl, by decide, ?_⟩
  decide

/-- C4 amended: the scan loop never consults the next_offset component of
the scroll response (its result is unchanged under any change of that
component), and when it stops it does so either because the cumulative
offset has reached the total count captured at start or because the page
fetched at the final offset is empty. -/
theorem loop_stop_condition_amended
    (scroll₁ scroll₂ : Nat → Nat → List Point × Option Nat)
    (h : ∀ o l, (scroll₁ o l).1 = (scroll₂ o l).1)
    (bs total fuel : Nat) (s : LoopState) :
    migrateLoop scroll₁ bs total fuel s = migrateLoop scroll₂ bs total fuel s ∧
    (∀ s', migrateLoop scroll₁ bs total fuel s = some s' →
      total ≤ s'.offset ∨ (scroll₁ s'.offset (min bs (total - s'.offset))).1 = []) :=
  ⟨migrateLoop_fst_congr scroll₁ scroll₂ h bs total fuel s,
    fun s' hrun => migrateLoop_stop scroll₁ bs total fuel s s' hrun⟩

theorem loop_stop_condition_amended_witness :
    migrateLoop (fun _ _ => ([], some 9)) 1 2 2 (initState [])
        = migrateLoop (fun _ _ => ([], none)) 1 2 2 (initState []) ∧
    (∀ s', migrateLoop (fun _ _ => ([], some 9)) 1 2 2 (initState []) = some s' →
      2 ≤ s'.offset ∨ ((fun (_ _ : Nat) => (([] : List Point), some 9)) s'.offset
        (min 1 (2 - s'.offset))).1 = []) :=
  loop_stop_condition_amended (fun _ _ => ([], some 9)) (fun _ _ => ([], none))
    (fun _ _ => rfl) 1 2 2 (initState [])

/-- C6 counterexample: a concrete completed run whose target count (0)
differs from the source count (2) exits with code 0 and prints a warning,
but the migration result dictionary has no mismatch field at all: its
keys are exactly collection, migrated_at, source_points, target_points,
vector_size and migration_duration_seconds, refuting the claim that the
result carries mismatch = true. -/
theorem mismatch_field_counterexample :
    (mainRun ["sengol_incidents"] "sengol_incidents" (fun _ _ => ([], none))
        ⟨2, 3, Distance.cosine⟩ ⟨none⟩).exitCode = 0 ∧
    (mainRun ["sengol_incidents"] "sengol_incidents" (fun _ _ => ([], none))
        ⟨2, 3, Distance.cosine⟩ ⟨none⟩).result
      = some { store := ⟨some (⟨3, Distance.cosine⟩, [])⟩
               metadata := ⟨2, 0, 3⟩
               warnings := ["WARNING: Mismatch in point count!"]
               scanCalls := 1
               percents := []
               trace := [MEvent.create 3 Distance.cosine] } ∧
    (0 : Nat) ≠ 2 ∧
    "mismatch" ∉ migrationMetadataKeys := by
  refine ⟨rfl, rfl, by decide, by decide⟩

/-- C6 amended: when verification finds the destination count unequal to
the source count, the run still completes without raising: the mismatch
warning is printed, the process exits with code 0, and the migration
result records the source count; the result has no mismatch boolean
field (its key list does not contain mismatch), so the discrepancy is
only derivable by comparing source_points and target_points. -/
theorem mismatch_nonfatal_amended (colls : List String) (name : String)
    (scroll : Nat → Nat → List Point × Option Nat) (srcInfo : SourceInfo)
    (store0 : TargetStore) (run : MigrationRun)
    (hmem : name ∈ colls)
    (h : migrate_collection scroll srcInfo store0 100 = some run)
    (hmis : run.metadata.target_points ≠ run.metadata.source_points) :
    (mainRun colls name scroll srcInfo store0).exitCode = 0 ∧
    run.warnings = ["WARNING: Mismatch in point count!"] ∧
    run.metadata.source_points = srcInfo.points_count ∧
    "mismatch" ∉ migrationMetadataKeys := by
  obtain ⟨cfg, pts0, creates, s, hE, hL, hst, hmd, hw, hsc, hpc, htr⟩ :=
    migrate_collection_inv scroll srcInfo store0 100 run h
  have hmis' : s.target.length ≠ srcInfo.points_count := by
    rw [hmd] at hmis
    exact hmis
  refine ⟨?_, ?_, ?_, by decide⟩
  · unfold mainRun
    rw [if_pos hmem, h]
  · rw [hw, if_pos hmis']
  · rw [hmd]

theorem mismatch_nonfatal_amended_witness :
    ("sengol_incidents" ∈ ["sengol_incidents"]) ∧
    ((mainRun ["sengol_incidents"] "sengol_incidents" (fun _ _ => ([], none))
        ⟨2, 3, Distance.cosine⟩ ⟨none⟩).exitCode = 0 ∧
      MigrationRun.warnings
          { store := ⟨some (⟨3, Distance.cosine⟩, [])⟩
            metadata := ⟨2, 0, 3⟩
            warnings := ["WARNING: Mismatch in point count!"]
            scanCalls := 1
            percents := []
            trace := [MEvent.create 3 Distance.cosine] }
        = ["WARNING: Mismatch in point count!"] ∧
      MigrationMetadata.source_points (MigrationRun.metadata
          { store := ⟨some (⟨3, Distance.cosine⟩, [])⟩
            metadata := ⟨2, 0, 3⟩
            warnings := ["WARNING: Mismatch in point count!"]
            scanCalls := 1
            percents := []
            trace := [MEvent.create 3 Distance.cosine] })
        = (SourceInfo.mk 2 3 Distance.cosine).points_count ∧
      "mismatch" ∉ migrationMetadataKeys) :=
  ⟨by decide,
    mismatch_nonfatal_amended ["sengol_incidents"] "sengol_incidents"
      (fun _ _ => ([], none)) ⟨2, 3, Distance.cosine⟩ ⟨none⟩ _
      (by decide) rfl (by decide)⟩

/-- C9 counterexample: with a source reporting zero points, the run
issues no scroll call and prints no progress line at all, so no
completion percentage of 100 is reported, refuting that part of the
claim (the scroll function here would return a non-empty page if it were
ever called). -/
theorem empty_collection_no_percent_counterexample :
    (migrate_collection (fun _ _ => ([Point.mk 1 [] "x"], none))
        ⟨0, 3, Distance.cosine⟩ ⟨none⟩ 100).map MigrationRun.percents
      = some [] ∧
    (migrate_collection (fun _ _ => ([Point.mk 1 [] "x"], none))
        ⟨0, 3, Distance.cosine⟩ ⟨none⟩ 100).map MigrationRun.scanCalls
      = some 0 := by
  refine ⟨rfl, rfl⟩

/-- C9 amended: when the source count is zero the run issues no scroll
call, performs no upsert, prints no progress percentage at all (the
progress line lives inside the loop body, which never executes), and
proceeds directly to verification, producing a result whose source count
is zero. -/
theorem empty_collection_amended (scroll : Nat → Nat → List Point × Option Nat)
    (srcInfo : SourceInfo) (store0 : TargetStore) (bs : Nat)
    (hz : srcInfo.points_count = 0) :
    ∃ run, migrate_collection scroll srcInfo store0 bs = some run ∧
      run.scanCalls = 0 ∧
      run.percents = [] ∧
      run.metadata.source_points = 0 ∧
      (∀ e ∈ run.trace, e.isCreate = true) := by
  obtain ⟨c0⟩ := store0
  rcases c0 with _ | ⟨cfg0, pts00⟩
  · have h := migrate_collection_eval scroll srcInfo ⟨none⟩ bs
      ⟨srcInfo.vector_size, Distance.cosine⟩ []
      [MEvent.create srcInfo.vector_size Distance.cosine] (initState [])
      rfl
      (migrateLoop_done scroll bs srcInfo.points_count srcInfo.points_count
        (initState []) (by simp [initState, hz]))
    refine ⟨_, h, rfl, rfl, hz, ?_⟩
    intro e he
    simp only [initState, List.map_nil, List.append_nil,
      List.mem_singleton] at he
    rw [he]
    rfl
  · have h := migrate_collection_eval scroll srcInfo ⟨some (cfg0, pts00)⟩ bs
      cfg0 pts00 [] (initState pts00)
      rfl
      (migrateLoop_done scroll bs srcInfo.points_count srcInfo.points_count
        (initState pts00) (by simp [initState, hz]))
    refine ⟨_, h, rfl, rfl, hz, ?_⟩
    intro e he
    simp only [initState, List.map_nil, List.nil_append, List.append_nil] at he
    exact absurd he (List.not_mem_nil e)

theorem empty_collection_amended_witness :
    ((SourceInfo.mk 0 7 Distance.euclid).points_count = 0) ∧
    ∃ run, migrate_collection (fun _ _ => ([Point.mk 2 [] "y"], some 1))
        ⟨0, 7, Distance.euclid⟩ ⟨none⟩ 50 = some run ∧
      run.scanCalls = 0 ∧
      run.percents = [] ∧
      run.metadata.source_points = 0 ∧
      (∀ e ∈ run.trace, e.isCreate = true) :=
  ⟨rfl, empty_collection_amended (fun _ _ => ([Point.mk 2 [] "y"], some 1))
    ⟨0, 7, Distance.euclid⟩ ⟨none⟩ 50 rfl⟩

/-- C8 counterexample: a record with an embedding but no id field makes
the transform raise (modelled as none) instead of producing a destination
record with a default id, refuting the claim that the transformer is
total on arbitrary source records. -/
theorem transform_missing_id_counterexample :
    transformRecord ⟨none, some [1], none, none, none⟩ = none := rfl

/-- C8 amended: on every record that carries an id and an embedding the
transform is total and produces exactly one destination record,
substituting a deterministic default (none or the empty string) for every
other absent field; its content field is the first non-empty of the
original record's description, text and abstract fields, falling back to
the embedding text, truncated to 1000 characters. Records lacking id or
embedding raise instead. -/
theorem transform_total_amended (emb : EmbRecord) (pid : String)
    (vec : List Int) (hid : emb.id = some pid)
    (hvec : emb.embedding = some vec) :
    transformRecord emb = some
      { id := pid
        vector := vec
        payload :=
          { embedding_id := emb.embedding_id
            embedding_text := emb.embedding_text.getD ""
            content := pyTruncate (firstNonEmpty
              [((emb.metadata.getD MetaRecord.empty).original_record.getD
                  OrigRecord.empty).description,
                ((emb.metadata.getD MetaRecord.empty).original_record.getD
                  OrigRecord.empty).text,
                ((emb.metadata.getD MetaRecord.empty).original_record.getD
                  OrigRecord.empty).abstract]
              (emb.embedding_text.getD "")) 1000
            source_file := (emb.metadata.getD MetaRecord.empty).source_file
            category := (emb.metadata.getD MetaRecord.empty).category
            metadata :=
              { title := ((emb.metadata.getD MetaRecord.empty).original_record.getD
                  OrigRecord.empty).title
                severity := ((emb.metadata.getD MetaRecord.empty).original_record.getD
                  OrigRecord.empty).severity
                organization := ((emb.metadata.getD MetaRecord.empty).original_record.getD
                  OrigRecord.empty).organization
                incident_date := ((emb.metadata.getD MetaRecord.empty).original_record.getD
                  OrigRecord.empty).incident_date } } } := by
  unfold transformRecord
  rw [hid, hvec]
  simp only [firstNonEmpty]

theorem transform_total_amended_witness :
    ((EmbRecord.mk (some "a") (some [1, 2]) none none none).id = some "a") ∧
    ((EmbRecord.mk (some "a") (some [1, 2]) none none none).embedding
      = some [1, 2]) ∧
    transformRecord ⟨some "a", some [1, 2], none, none, none⟩ = some
      { id := "a"
        vector := [1, 2]
        payload :=
          { embedding_id := none
            embedding_text := ""
            content := ""
            source_file := none
            category := none
            metadata := ⟨none, none, none, none⟩ } } :=
  ⟨rfl, rfl,
    transform_total_amended ⟨some "a", some [1, 2], none, none, none⟩ "a" [1, 2]
      rfl rfl⟩
